import Mathlib

/-!
Shallow embedding of the authorization layer of the `shadi_service`
repository: the Auth0 permission checkers, the user-permission sync
service, the vendor-staff relationship model, the vendor access
resolution helpers of the management views, and the JWKS signing-key
lookup of the JWT authentication class.

Python conventions are made explicit: optional/nullable fields are
`Option`, Python truthiness of strings and lists is modelled by
dedicated predicates, and network calls are modelled by passing the
outcome of the call as an explicit parameter.
-/

/-- Python truthiness of an optional string: `None` and `""` are falsy. -/
def pyTruthyStr : Option String → Bool
  | none => false
  | some s => !s.isEmpty

/-- Python truthiness of an optional list: `None` and `[]` are falsy. -/
def pyTruthyList : Option (List String) → Bool
  | none => false
  | some l => !l.isEmpty

/-- A row of the `VendorUser` model (`src/auth/models/vendor_user.py`):
the relationship between a vendor business and a user who can manage it. -/
structure VendorUser where
  vendor : Nat
  user : Nat
  role : String
  is_active : Bool
  created_at : Nat
deriving DecidableEq, Repr

/-- A Django user with the Auth0 fields used by the permission layer
(`auth0_user_id`, `auth0_roles`, `auth0_permissions`, `last_auth0_sync`)
plus the `managed_vendors` reverse relation of `VendorUser`. -/
structure UserProfile where
  is_authenticated : Bool
  auth0_user_id : Option String
  auth0_roles : Option (List String)
  auth0_permissions : Option (List String)
  last_auth0_sync : Option Nat
  managed_vendors : List VendorUser
deriving DecidableEq, Repr

/-- `Auth0PermissionChecker.has_permission` (`src/auth/auth0_permissions.py`):
false when the user is unauthenticated or the permission list is falsy,
otherwise an exact membership test. -/
def has_permission (user : UserProfile) (permission : String) : Bool :=
  if !user.is_authenticated || !pyTruthyList user.auth0_permissions then false
  else (user.auth0_permissions.getD []).contains permission

/-- `Auth0PermissionChecker.has_role` (`src/auth/auth0_permissions.py`). -/
def has_role (user : UserProfile) (role : String) : Bool :=
  if !user.is_authenticated || !pyTruthyList user.auth0_roles then false
  else (user.auth0_roles.getD []).contains role

/-- `Auth0PermissionChecker.has_any_permission` (`src/auth/auth0_permissions.py`). -/
def has_any_permission (user : UserProfile) (permissions : List String) : Bool :=
  if !user.is_authenticated || !pyTruthyList user.auth0_permissions then false
  else permissions.any (fun perm => (user.auth0_permissions.getD []).contains perm)

/-- `Auth0PermissionChecker.has_all_permissions` (`src/auth/auth0_permissions.py`). -/
def has_all_permissions (user : UserProfile) (permissions : List String) : Bool :=
  if !user.is_authenticated || !pyTruthyList user.auth0_permissions then false
  else permissions.all (fun perm => (user.auth0_permissions.getD []).contains perm)

/-- `Auth0PermissionChecker.user_has_permission`
(`src/authentication/services/auth0_permissions.py`): the variant
without the authentication guard. -/
def user_has_permission (user : UserProfile) (permission : String) : Bool :=
  if !pyTruthyList user.auth0_permissions then false
  else (user.auth0_permissions.getD []).contains permission

/-- `VendorUser.get_vendor_permissions` (`src/auth/models/vendor_user.py`):
the permissions derived from a vendor-staff relationship row. Base read
permissions come first; the role tier adds its extension. -/
def VendorUser.get_vendor_permissions (vu : VendorUser) : List String :=
  let base := ["read:vendor_info", "read:vendor_inquiries"]
  if vu.role = "owner" ∨ vu.role = "manager" then
    base ++ ["edit:vendor_info", "manage:vendor_bookings", "respond:vendor_inquiries",
             "view:vendor_analytics", "manage:vendor_team"]
  else if vu.role = "employee" then
    base ++ ["manage:vendor_bookings", "respond:vendor_inquiries"]
  else if vu.role = "representative" then
    base ++ ["respond:vendor_inquiries"]
  else base

/-- `Auth0VendorPermissionChecker.has_vendor_permission`
(`src/auth/auth0_permissions.py`): Django `.get(vendor=..., is_active=True)`
succeeds only when exactly one row matches; the broad `except` turns
anything else into `False`. -/
def has_vendor_permission (user : UserProfile) (vendor : Nat) (permission : String) :
    Bool :=
  if !user.is_authenticated then false
  else
    match user.managed_vendors.filter (fun r => r.vendor == vendor && r.is_active) with
    | [vu] => vu.get_vendor_permissions.contains permission
    | _ => false

/-- The tier-to-capability mapping exactly as the specification's §4.6 states
it, written with the source's permission strings; declared only to compare
against the source's `VendorUser.get_vendor_permissions`. -/
def specTierCapabilities (role : String) : List String :=
  if role = "owner" ∨ role = "manager" then
    ["read:vendor_info", "edit:vendor_info", "manage:vendor_bookings",
     "respond:vendor_inquiries", "view:vendor_analytics", "manage:vendor_team"]
  else if role = "employee" then
    ["manage:vendor_bookings", "respond:vendor_inquiries"]
  else if role = "representative" then
    ["respond:vendor_inquiries"]
  else []

/-- Outcome of the network round-trips performed inside
`Auth0UserSync.get_user_roles_and_permissions` (`src/auth/auth0_permissions.py`):
the management-token request can raise, the roles/permissions requests can
fail with an HTTP error, or both succeed with role and permission lists. -/
inductive ProviderOutcome where
  | tokenFailure
  | httpFailure
  | success (roles : List String) (permissions : List String)
deriving DecidableEq, Repr

/-- The `{'roles': ..., 'permissions': ...}` dictionary returned by
`Auth0UserSync.get_user_roles_and_permissions`. -/
structure Auth0Data where
  roles : List String
  permissions : List String
deriving DecidableEq, Repr

/-- `Auth0UserSync.get_user_roles_and_permissions`
(`src/auth/auth0_permissions.py`): a failure of `get_management_token`
propagates as an exception (`Except.error`); an HTTP failure of the
roles/permissions requests is caught and turned into empty lists. -/
def get_user_roles_and_permissions : ProviderOutcome → Except Unit Auth0Data
  | ProviderOutcome.tokenFailure => Except.error ()
  | ProviderOutcome.httpFailure => Except.ok ⟨[], []⟩
  | ProviderOutcome.success roles perms => Except.ok ⟨roles, perms⟩

/-- `Auth0UserSync.sync_user_permissions` (`src/auth/auth0_permissions.py`):
returns `False` without mutation when the user has no Auth0 id or when the
fetch raises; otherwise overwrites `auth0_roles`, `auth0_permissions` and
`last_auth0_sync` with whatever the fetch returned and returns `True`. -/
def sync_user_permissions (outcome : ProviderOutcome) (now : Nat)
    (user : UserProfile) : Bool × UserProfile :=
  if !pyTruthyStr user.auth0_user_id then (false, user)
  else
    match get_user_roles_and_permissions outcome with
    | Except.error _ => (false, user)
    | Except.ok data =>
        (true, { user with auth0_roles := some data.roles,
                           auth0_permissions := some data.permissions,
                           last_auth0_sync := some now })

/-- A vendor business row (`src/authentication/models/vendor_business.py`)
restricted to what the access-resolution helpers read: the recorded
administrator and the related `vendor_users` rows. -/
structure Vendor where
  admin : Nat
  vendor_users : List VendorUser
deriving DecidableEq, Repr

/-- `VendorManagementDetailAPIView.get_user_role`
(`src/authentication/views/vendor_management_views.py`): the admin is
reported as `owner` before any staff row is consulted; otherwise the first
active staff row's role is used. -/
def get_user_role (userId : Nat) (vendor : Vendor) : Option String :=
  if vendor.admin == userId then some "owner"
  else
    match vendor.vendor_users.find? (fun r => r.user == userId && r.is_active) with
    | some vu => some vu.role
    | none => none

/-- `IsVendorOwnerOrStaff.has_object_permission`
(`src/authentication/permissions.py`) specialised to `Vendor` objects; the
`super_admin` Auth0 role check is passed in as a boolean. -/
def has_object_permission (superAdmin : Bool) (userId : Nat) (vendor : Vendor) :
    Bool :=
  if superAdmin then true
  else if vendor.admin == userId then true
  else vendor.vendor_users.any (fun r => r.user == userId && r.is_active)

/-- A JSON Web Key as read from the JWKS endpoint: key id and the RSA
components consulted by `get_signing_key`. -/
structure JWK where
  kid : String
  n : String
  e : String
deriving DecidableEq, Repr

/-- The `{keys: [...]}` document returned by the JWKS endpoint. -/
structure JWKSet where
  keys : List JWK
deriving DecidableEq, Repr

/-- Result of the signing-key lookup: the token header may lack a `kid`,
the key id may be absent from the key set, or a key is found. -/
inductive KeyResult where
  | missingKid
  | unknownKey
  | foundKey (k : JWK)
deriving DecidableEq, Repr

/-- `Auth0JSONWebTokenAuthentication.get_signing_key`
(`src/authentication/auth0_jwt.py`). `cache` is the cached JWKS for the
domain (`None` on cache miss), `fetched` the document a network fetch would
return. The fetch happens only when the cache is empty; the middle component
counts fetches performed; the last component is the cache afterwards. -/
def get_signing_key (cache : Option JWKSet) (fetched : JWKSet) (kid : Option String) :
    KeyResult × Nat × Option JWKSet :=
  let state :=
    match cache with
    | some jwks => (jwks, 0, some jwks)
    | none => (fetched, 1, some fetched)
  match kid with
  | none => (KeyResult.missingKid, state.2.1, state.2.2)
  | some k =>
    match state.1.keys.find? (fun key => key.kid == k) with
    | some key => (KeyResult.foundKey key, state.2.1, state.2.2)
    | none => (KeyResult.unknownKey, state.2.1, state.2.2)

/-- The key set `get_signing_key` actually searches: the cached one when
present, otherwise the freshly fetched one. -/
def cachedOrFetched (cache : Option JWKSet) (fetched : JWKSet) : JWKSet :=
  match cache with
  | some jwks => jwks
  | none => fetched

/-- `Auth0JSONWebTokenAuthentication._pad_base64`
(`src/authentication/auth0_jwt.py`): appends `'=' * (4 - len(s) % 4)`. -/
def pad_base64 (s : String) : String :=
  s ++ String.mk (List.replicate (4 - s.length % 4) '=')

/-- The persisted `VendorUser` table, whose `unique_together = ['vendor',
'user']` constraint (`src/auth/models/vendor_user.py`, Meta) is enforced on
insertion. -/
structure VendorUserTable where
  rows : List VendorUser
deriving DecidableEq, Repr

/-- Whether any row (active or not) exists for the (vendor, user) pair —
exactly what the `unique_together` constraint rejects duplicates of. -/
def pairExists (db : VendorUserTable) (vendor user : Nat) : Bool :=
  db.rows.any (fun r => r.vendor == vendor && r.user == user)

/-- Creating a `VendorUser` row (`is_active` defaults to `True`): the
database raises an integrity error when a row for the same (vendor, user)
pair already exists. -/
def createVendorUser (db : VendorUserTable) (vendor user : Nat) (role : String)
    (t : Nat) : Except Unit VendorUserTable :=
  if pairExists db vendor user then Except.error ()
  else Except.ok ⟨db.rows ++ [⟨vendor, user, role, true, t⟩]⟩

/-- Revoking access: the row is deactivated in place, never deleted. -/
def deactivateVendorUser (db : VendorUserTable) (vendor user : Nat) :
    VendorUserTable :=
  ⟨db.rows.map (fun r =>
    if r.vendor == vendor && r.user == user then { r with is_active := false }
    else r)⟩

/-- The lifecycle operations on the `VendorUser` table. -/
inductive VendorOp where
  | create (vendor user : Nat) (role : String) (t : Nat)
  | deactivate (vendor user : Nat)

/-- Applying one operation; a rejected create leaves the table unchanged. -/
def applyVendorOp (db : VendorUserTable) : VendorOp → VendorUserTable
  | VendorOp.create v u role t =>
    match createVendorUser db v u role t with
    | Except.ok db2 => db2
    | Except.error _ => db
  | VendorOp.deactivate v u => deactivateVendorUser db v u

/-- Running a sequence of lifecycle operations from the empty table
(the most recent operation at the head of the list). -/
def runVendorOps : List VendorOp → VendorUserTable
  | [] => ⟨[]⟩
  | op :: ops => applyVendorOp (runVendorOps ops) op

/-- Number of active rows for a (vendor, user) pair. -/
def activeCount (db : VendorUserTable) (vendor user : Nat) : Nat :=
  (db.rows.filter (fun r => (r.vendor == vendor && r.user == user) && r.is_active)).length

/-- Number of rows, active or not, for a (vendor, user) pair. -/
def rowCount (db : VendorUserTable) (vendor user : Nat) : Nat :=
  (db.rows.filter (fun r => r.vendor == vendor && r.user == user)).length

/-- Claim C4 counterexample: for the authenticated user below with an empty
permission list and the empty required list, every element of the required
list is (vacuously) in the permission set, yet `has_all_permissions`
returns `false` — refuting the claimed if-and-only-if. -/
theorem C4_counterexample :
    has_all_permissions ⟨true, some "auth0|1", some [], some [], none, []⟩ [] = false ∧
    ([] : List String).all (fun p => ([] : List String).contains p) = true := by
  decide

/-- Claim C4 (amended): `has_all_permissions user S` is true iff the user is
authenticated, the permission list is non-null and non-empty, and every
element of S is a member of it; with an empty or null permission list (or an
unauthenticated user) the result is false for every S, including S = []. -/
theorem C4_amended_has_all_permissions_iff (user : UserProfile) (S : List String) :
    has_all_permissions user S = true ↔
      (user.is_authenticated = true ∧
       ∃ l, user.auth0_permissions = some l ∧ l ≠ [] ∧ ∀ p ∈ S, p ∈ l) := by
  unfold has_all_permissions pyTruthyList
  constructor
  · intro h
    by_cases hauth : user.is_authenticated
    · rcases hperm : user.auth0_permissions with _ | l
      · simp [hperm, hauth] at h
      · refine ⟨hauth, l, rfl, ?_, ?_⟩
        · intro hnil
          simp [hperm, hauth, hnil] at h
        · intro p hp
          by_cases hnil : l.isEmpty
          · simp [hperm, hauth, hnil] at h
          · simp only [hperm, hauth, hnil, Option.getD_some, Bool.not_true,
              Bool.false_or, Bool.not_false, if_neg, Bool.false_eq_true,
              not_false_eq_true, List.all_eq_true] at h
            simpa [List.elem_iff] using h p hp
    · simp [hauth] at h
  · rintro ⟨hauth, l, hperm, hnil, hall⟩
    have hne : l.isEmpty = false := by
      cases l with
      | nil => exact absurd rfl hnil
      | cons a t => rfl
    simp only [hperm, hauth, hne, Option.getD_some, Bool.not_true, Bool.not_false,
      Bool.false_or, if_neg, Bool.false_eq_true, not_false_eq_true, List.all_eq_true]
    intro p hp
    simpa [List.elem_iff] using hall p hp

/-- Witness for the amended C4 theorem at a concrete user and list. -/
theorem C4_witness :
    has_all_permissions ⟨true, some "auth0|1", some [], some ["a", "b"], none, []⟩
      ["a"] = true := by
  exact (C4_amended_has_all_permissions_iff _ _).mpr
    ⟨rfl, ["a", "b"], rfl, by decide, by decide⟩

/-- Claim C5: an unauthenticated user, or a null/empty permission list,
makes `has_permission` return false (it never treats an empty list as
all-allowed and never raises); the service-layer `user_has_permission`
likewise returns false on a null/empty permission list. -/
theorem C5_empty_or_unauthenticated_denied (user : UserProfile) (p : String) :
    (user.is_authenticated = false ∨ user.auth0_permissions = none ∨
        user.auth0_permissions = some [] →
      has_permission user p = false) ∧
    (user.auth0_permissions = none ∨ user.auth0_permissions = some [] →
      user_has_permission user p = false) := by
  constructor
  · rintro (h | h | h) <;> simp [has_permission, pyTruthyList, h]
  · rintro (h | h) <;> simp [user_has_permission, pyTruthyList, h]

/-- Witness for C5 at a concrete unauthenticated user with an empty list. -/
theorem C5_witness :
    has_permission ⟨false, none, none, some [], none, []⟩ "update:own_vendor" = false ∧
    user_has_permission ⟨false, none, none, some [], none, []⟩ "update:own_vendor"
      = false := by
  exact ⟨(C5_empty_or_unauthenticated_denied _ _).1 (Or.inl rfl),
         (C5_empty_or_unauthenticated_denied _ _).2 (Or.inr rfl)⟩

/-- Claim C1 counterexample: when the roles/permissions HTTP fetch fails
(`httpFailure`), `sync_user_permissions` returns `True` and overwrites the
user's roles and permissions with empty lists, updating `last_auth0_sync` —
it neither returns failure nor leaves the principal's state unchanged. -/
theorem C1_counterexample :
    (sync_user_permissions ProviderOutcome.httpFailure 10
        ⟨true, some "auth0|1", some ["Admin"], some ["read:events"], some 5, []⟩).1
      = true ∧
    (sync_user_permissions ProviderOutcome.httpFailure 10
        ⟨true, some "auth0|1", some ["Admin"], some ["read:events"], some 5, []⟩).2
      = ⟨true, some "auth0|1", some [], some [], some 10, []⟩ := by
  decide

/-- Claim C1 (amended): only a failure of the management-token request (or a
missing Auth0 id) makes sync return failure with the principal's state
unchanged; a failure of the roles/permissions requests is converted into
empty lists, which sync writes over roles and permissions together with a
fresh `last_auth0_sync`, returning success. -/
theorem C1_amended_sync_failure_semantics (user : UserProfile) (now : Nat) :
    (pyTruthyStr user.auth0_user_id = true →
      sync_user_permissions ProviderOutcome.tokenFailure now user = (false, user) ∧
      sync_user_permissions ProviderOutcome.httpFailure now user =
        (true, { user with
                 auth0_roles := some []
                 auth0_permissions := some []
                 last_auth0_sync := some now })) ∧
    (pyTruthyStr user.auth0_user_id = false →
      ∀ outcome, sync_user_permissions outcome now user = (false, user)) := by
  constructor
  · intro h
    constructor <;> simp [sync_user_permissions, get_user_roles_and_permissions, h]
  · intro h outcome
    simp [sync_user_permissions, h]

/-- Witness for the amended C1 theorem at a concrete user. -/
theorem C1_witness :
    sync_user_permissions ProviderOutcome.tokenFailure 10
        ⟨true, some "auth0|1", some ["Admin"], some ["read:events"], some 5, []⟩
      = (false, ⟨true, some "auth0|1", some ["Admin"], some ["read:events"], some 5, []⟩) :=
  ((C1_amended_sync_failure_semantics
      ⟨true, some "auth0|1", some ["Admin"], some ["read:events"], some 5, []⟩ 10).1
    (by decide)).1

/-- Claim C2 counterexample: the user below holds an active `employee`
relationship to vendor 200, whose locally-derived permissions include
`read:vendor_info`; yet a successful sync stores exactly the
provider-sourced list, which does not contain it — so the stored list is
not the union of the two sources. -/
theorem C2_counterexample :
    (sync_user_permissions (ProviderOutcome.success ["Admin"] ["read:events"]) 10
        ⟨true, some "auth0|7", none, none, none, [⟨200, 7, "employee", true, 0⟩]⟩).1
      = true ∧
    (sync_user_permissions (ProviderOutcome.success ["Admin"] ["read:events"]) 10
        ⟨true, some "auth0|7", none, none, none, [⟨200, 7, "employee", true, 0⟩]⟩).2.auth0_permissions
      = some ["read:events"] ∧
    (VendorUser.get_vendor_permissions ⟨200, 7, "employee", true, 0⟩).contains
      "read:vendor_info" = true ∧
    (["read:events"] : List String).contains "read:vendor_info" = false := by
  decide

/-- Claim C2 (amended): a successful sync stores exactly the
provider-sourced role and permission lists; permissions derived from active
vendor-staff relationships are not merged in (they are computed on demand
by `has_vendor_permission` instead). -/
theorem C2_amended_sync_sets_provider_permissions (user : UserProfile) (now : Nat)
    (roles perms : List String) (h : pyTruthyStr user.auth0_user_id = true) :
    sync_user_permissions (ProviderOutcome.success roles perms) now user =
      (true, { user with
               auth0_roles := some roles
               auth0_permissions := some perms
               last_auth0_sync := some now }) := by
  simp [sync_user_permissions, get_user_roles_and_permissions, h]

/-- Witness for the amended C2 theorem at a concrete user. -/
theorem C2_witness :
    sync_user_permissions (ProviderOutcome.success ["Admin"] ["read:events"]) 10
        ⟨true, some "auth0|7", none, none, none, [⟨200, 7, "employee", true, 0⟩]⟩
      = (true, ⟨true, some "auth0|7", some ["Admin"], some ["read:events"], some 10,
                [⟨200, 7, "employee", true, 0⟩]⟩) :=
  C2_amended_sync_sets_provider_permissions
    ⟨true, some "auth0|7", none, none, none, [⟨200, 7, "employee", true, 0⟩]⟩
    10 ["Admin"] ["read:events"] (by decide)

/-- Claim C9: syncing twice with the provider returning the same data both
times leaves the permission list after the second sync identical to the one
after the first — sync is idempotent with respect to the provider response. -/
theorem C9_sync_idempotent (outcome : ProviderOutcome) (now1 now2 : Nat)
    (user : UserProfile) :
    (sync_user_permissions outcome now2
        (sync_user_permissions outcome now1 user).2).2.auth0_permissions
      = (sync_user_permissions outcome now1 user).2.auth0_permissions := by
  cases outcome <;>
    cases h : pyTruthyStr user.auth0_user_id <;>
      simp [sync_user_permissions, get_user_roles_and_permissions, h]

/-- Claim C6: when the user is the vendor's recorded administrator, the
management view reports the `owner` role and the object-level permission
check grants access, whatever staff relationship rows exist (active or
inactive, of any tier) and whether or not the user is a super admin. -/
theorem C6_owner_priority (userId : Nat) (vendor : Vendor) (superAdmin : Bool)
    (h : vendor.admin = userId) :
    get_user_role userId vendor = some "owner" ∧
    has_object_permission superAdmin userId vendor = true := by
  constructor
  · simp [get_user_role, h]
  · cases superAdmin <;> simp [has_object_permission, h]

/-- Witness for C6: the admin of vendor 100 also appears in conflicting
staff rows (an active employee row and an inactive manager row), yet is
resolved as `owner` with access granted. -/
theorem C6_witness :
    get_user_role 1
        ⟨1, [⟨100, 1, "employee", true, 0⟩, ⟨100, 1, "manager", false, 1⟩]⟩
      = some "owner" ∧
    has_object_permission false 1
        ⟨1, [⟨100, 1, "employee", true, 0⟩, ⟨100, 1, "manager", false, 1⟩]⟩
      = true :=
  C6_owner_priority 1
    ⟨1, [⟨100, 1, "employee", true, 0⟩, ⟨100, 1, "manager", false, 1⟩]⟩ false rfl

/-- Claim C7 counterexample: the derived permission set of an active
`employee` relationship contains `read:vendor_info`, which the
specification's tier mapping does not grant to the employee tier — the
derived set is not exactly the spec's mapping. -/
theorem C7_counterexample :
    ("read:vendor_info" ∈ VendorUser.get_vendor_permissions ⟨200, 7, "employee", true, 0⟩) ∧
    ¬ ("read:vendor_info" ∈ specTierCapabilities "employee") := by
  decide

/-- Claim C7 (amended): every tier receives the base permissions
`read:vendor_info` and `read:vendor_inquiries`; on top of those,
owner/manager get edit info, manage bookings, respond to inquiries, view
analytics and manage team; employee gets manage bookings and respond to
inquiries; representative gets respond to inquiries. In particular an
employee-tier principal is allowed `respond:vendor_inquiries` and denied
`manage:vendor_team` by the vendor permission checker. -/
theorem C7_amended_tier_mapping :
    (∀ v u a t, VendorUser.get_vendor_permissions ⟨v, u, "owner", a, t⟩ =
      ["read:vendor_info", "read:vendor_inquiries", "edit:vendor_info",
       "manage:vendor_bookings", "respond:vendor_inquiries",
       "view:vendor_analytics", "manage:vendor_team"]) ∧
    (∀ v u a t, VendorUser.get_vendor_permissions ⟨v, u, "manager", a, t⟩ =
      ["read:vendor_info", "read:vendor_inquiries", "edit:vendor_info",
       "manage:vendor_bookings", "respond:vendor_inquiries",
       "view:vendor_analytics", "manage:vendor_team"]) ∧
    (∀ v u a t, VendorUser.get_vendor_permissions ⟨v, u, "employee", a, t⟩ =
      ["read:vendor_info", "read:vendor_inquiries", "manage:vendor_bookings",
       "respond:vendor_inquiries"]) ∧
    (∀ v u a t, VendorUser.get_vendor_permissions ⟨v, u, "representative", a, t⟩ =
      ["read:vendor_info", "read:vendor_inquiries", "respond:vendor_inquiries"]) ∧
    has_vendor_permission
      ⟨true, some "auth0|7", none, none, none, [⟨200, 7, "employee", true, 0⟩]⟩
      200 "respond:vendor_inquiries" = true ∧
    has_vendor_permission
      ⟨true, some "auth0|7", none, none, none, [⟨200, 7, "employee", true, 0⟩]⟩
      200 "manage:vendor_team" = false := by
  refine ⟨fun v u a t => rfl, fun v u a t => rfl, fun v u a t => rfl,
    fun v u a t => rfl, by decide, by decide⟩

/-- Claim C3 counterexample: the JWKS cache holds a key set without the
token's key id `k2`; the lookup fails with an unknown-key error after zero
fetches — no refetch of the issuer's key set is performed on a cached
key-id miss. -/
theorem C3_counterexample :
    (get_signing_key (some ⟨[⟨"k1", "n1", "e1"⟩]⟩) ⟨[⟨"k2", "n2", "e2"⟩]⟩
        (some "k2")).1 = KeyResult.unknownKey ∧
    (get_signing_key (some ⟨[⟨"k1", "n1", "e1"⟩]⟩) ⟨[⟨"k2", "n2", "e2"⟩]⟩
        (some "k2")).2.1 = 0 ∧
    (JWKSet.mk [⟨"k1", "n1", "e1"⟩]).keys.all (fun key => !(key.kid == "k2"))
      = true := by
  decide

/-- Claim C3 (amended): the signing-key lookup fetches the issuer's key set
exactly once when the cache is empty and never otherwise (so never more
than once per validation); the key id is then looked up in the key set in
hand — the cached one, or the single fresh fetch — and its absence from
that set is what produces the unknown-key failure, with no further
refetch. -/
theorem C3_amended_fetch_only_on_empty_cache (cache : Option JWKSet)
    (fetched : JWKSet) (kid : Option String) :
    (get_signing_key cache fetched kid).2.1
      = (if cache.isSome then 0 else 1) ∧
    (get_signing_key cache fetched kid).2.1 ≤ 1 ∧
    (∀ k, kid = some k →
      ((get_signing_key cache fetched kid).1 = KeyResult.unknownKey ↔
        ∀ key ∈ (cachedOrFetched cache fetched).keys, key.kid ≠ k)) := by
  refine ⟨?_, ?_, ?_⟩
  · cases cache <;> cases kid <;> simp only [get_signing_key, Option.isSome] <;>
      (try split) <;> simp_all
  · cases cache <;> cases kid <;> simp only [get_signing_key] <;>
      (try split) <;> simp
  · intro k hk
    subst hk
    cases cache with
    | none =>
      simp only [get_signing_key, cachedOrFetched]
      cases hf : fetched.keys.find? (fun key => key.kid == k) with
      | none =>
        simp only [hf]
        simp only [true_iff, ne_eq]
        intro key hmem
        simpa using List.find?_eq_none.mp hf key hmem
      | some key =>
        simp only [hf]
        simp only [reduceCtorEq, false_iff, not_forall, ne_eq, not_not]
        exact ⟨key, List.mem_of_find?_eq_some hf, by simpa using List.find?_some hf⟩
    | some jwks =>
      simp only [get_signing_key, cachedOrFetched]
      cases hf : jwks.keys.find? (fun key => key.kid == k) with
      | none =>
        simp only [hf]
        simp only [true_iff, ne_eq]
        intro key hmem
        simpa using List.find?_eq_none.mp hf key hmem
      | some key =>
        simp only [hf]
        simp only [reduceCtorEq, false_iff, not_forall, ne_eq, not_not]
        exact ⟨key, List.mem_of_find?_eq_some hf, by simpa using List.find?_some hf⟩

/-- Witness for the amended C3 theorem: an empty cache with a fetched key
set lacking the key id gives exactly one fetch and an unknown-key result. -/
theorem C3_witness :
    (get_signing_key none ⟨[⟨"k1", "n1", "e1"⟩]⟩ (some "k2")).2.1 = 1 ∧
    (get_signing_key none ⟨[⟨"k1", "n1", "e1"⟩]⟩ (some "k2")).1
      = KeyResult.unknownKey :=
  ⟨(C3_amended_fetch_only_on_empty_cache none ⟨[⟨"k1", "n1", "e1"⟩]⟩ (some "k2")).1,
   ((C3_amended_fetch_only_on_empty_cache none ⟨[⟨"k1", "n1", "e1"⟩]⟩
      (some "k2")).2.2 "k2" rfl).mpr (by decide)⟩

/-- The length of a string built from a replicated character. -/
theorem length_mk_replicate (n : Nat) (c : Char) :
    (String.mk (List.replicate n c)).length = n := by
  simp [String.length]

/-- Claim C10: the padding helper appends `4 - len(s) % 4` equals signs,
always between 1 and 4 of them, so it never returns its input unchanged;
in particular a string whose length is already a multiple of 4 comes back
with four extra `'='` characters. -/
theorem C10_pad_base64_always_pads (s : String) :
    1 ≤ 4 - s.length % 4 ∧ 4 - s.length % 4 ≤ 4 ∧
    (pad_base64 s).length = s.length + (4 - s.length % 4) ∧
    pad_base64 s ≠ s ∧
    (s.length % 4 = 0 → pad_base64 s = s ++ "====") := by
  have hm : s.length % 4 < 4 := Nat.mod_lt _ (by decide)
  have hlen : (pad_base64 s).length = s.length + (4 - s.length % 4) := by
    simp [pad_base64, String.length_append, length_mk_replicate]
  refine ⟨by omega, by omega, hlen, ?_, ?_⟩
  · intro h
    have := congrArg String.length h
    rw [hlen] at this
    omega
  · intro h0
    unfold pad_base64
    rw [h0]
    congr 1

/-- Witness for C10 at a concrete input of length divisible by four. -/
theorem C10_witness :
    pad_base64 "abcd" = "abcd" ++ "====" ∧ pad_base64 "abcd" ≠ "abcd" :=
  ⟨(C10_pad_base64_always_pads "abcd").2.2.2.2 (by decide),
   (C10_pad_base64_always_pads "abcd").2.2.2.1⟩

/-- Filtering with a conjunction of predicates keeps at most as many rows
as filtering with the first predicate alone. -/
theorem filter_and_length_le (l : List VendorUser) (p q : VendorUser → Bool) :
    (l.filter (fun r => p r && q r)).length ≤ (l.filter p).length := by
  induction l with
  | nil => exact Nat.le_refl 0
  | cons a t ih =>
    cases hp : p a <;> cases hq : q a <;>
      simp [List.filter_cons, hp, hq] <;> omega

/-- Active rows for a pair are a subset of all rows for the pair. -/
theorem activeCount_le_rowCount (db : VendorUserTable) (v u : Nat) :
    activeCount db v u ≤ rowCount db v u :=
  filter_and_length_le db.rows
    (fun r => r.vendor == v && r.user == u) (fun r => r.is_active)

/-- Mapping a function that does not change a predicate's verdict leaves
the number of rows kept by a filter unchanged. -/
theorem filter_map_length_eq (l : List VendorUser) (f : VendorUser → VendorUser)
    (p : VendorUser → Bool) (hf : ∀ r, p (f r) = p r) :
    ((l.map f).filter p).length = (l.filter p).length := by
  induction l with
  | nil => rfl
  | cons a t ih =>
    simp only [List.map_cons, List.filter_cons, hf]
    cases hp : p a <;> simp [hp, ih]

/-- Deactivation only flips `is_active`, so it does not change how many
rows exist for any pair. -/
theorem rowCount_deactivate (db : VendorUserTable) (v' u' v u : Nat) :
    rowCount (deactivateVendorUser db v' u') v u = rowCount db v u := by
  refine filter_map_length_eq db.rows _ _ ?_
  intro r
  by_cases h : (r.vendor == v' && r.user == u') = true <;> simp [h]

/-- Every table reachable from the empty one by create/deactivate has at
most one row — active or not — per (vendor, user) pair: rejected creates
leave the table unchanged, accepted creates require the pair to be absent,
and deactivation does not add rows. -/
theorem rowCount_runVendorOps_le_one (ops : List VendorOp) (v u : Nat) :
    rowCount (runVendorOps ops) v u ≤ 1 := by
  induction ops with
  | nil => simp [runVendorOps, rowCount]
  | cons op ops ih =>
    cases op with
    | deactivate v' u' =>
      simpa [runVendorOps, applyVendorOp, rowCount_deactivate] using ih
    | create v' u' role t =>
      simp only [runVendorOps, applyVendorOp, createVendorUser]
      cases hex : pairExists (runVendorOps ops) v' u' with
      | true => simpa [hex] using ih
      | false =>
        simp only [hex, Bool.false_eq_true, if_neg, not_false_eq_true]
        unfold rowCount
        simp only [List.filter_append, List.length_append]
        cases hnew : ((v' == v) && (u' == u)) with
        | false =>
          have hf : (List.filter (fun r => r.vendor == v && r.user == u)
              [(⟨v', u', role, true, t⟩ : VendorUser)]) = [] := by
            simp [List.filter, hnew]
          rw [hf]
          simpa [rowCount] using ih
        | true =>
          obtain ⟨h1, h2⟩ := (Bool.and_eq_true _ _).mp hnew
          have hv : v' = v := by simpa using h1
          have hu : u' = u := by simpa using h2
          subst hv; subst hu
          have hx : (runVendorOps ops).rows.any
              (fun r => r.vendor == v' && r.user == u') = false := by
            simpa [pairExists] using hex
          have hall : ∀ r ∈ (runVendorOps ops).rows,
              ¬((r.vendor == v' && r.user == u') = true) :=
            fun r hr => List.any_eq_false.mp hx r hr
          have hzero : (List.filter (fun r => r.vendor == v' && r.user == u')
              (runVendorOps ops).rows) = [] :=
            List.filter_eq_nil_iff.mpr hall
          rw [hzero]
          simp [List.filter, hnew]

/-- Claim C8: for every sequence of create/deactivate operations run from
the empty table, each (vendor, user) pair has at most one active
relationship row; and creating a relationship for a pair that already has
one fails with an integrity error (the `unique_together` constraint),
leaving the invariant intact. -/
theorem C8_active_uniqueness_invariant (ops : List VendorOp) (v u : Nat) :
    activeCount (runVendorOps ops) v u ≤ 1 ∧
    (∀ role t, pairExists (runVendorOps ops) v u = true →
      createVendorUser (runVendorOps ops) v u role t = Except.error ()) := by
  constructor
  · exact le_trans (activeCount_le_rowCount _ _ _)
      (rowCount_runVendorOps_le_one ops v u)
  · intro role t h
    simp [createVendorUser, h]

/-- Witness for C8: after creating an active owner relationship for pair
(100, 1), the invariant holds and a second create for the same pair is
rejected with an integrity error. -/
theorem C8_witness :
    activeCount (runVendorOps [VendorOp.create 100 1 "owner" 0]) 100 1 ≤ 1 ∧
    createVendorUser (runVendorOps [VendorOp.create 100 1 "owner" 0]) 100 1
      "manager" 1 = Except.error () :=
  ⟨(C8_active_uniqueness_invariant [VendorOp.create 100 1 "owner" 0] 100 1).1,
   (C8_active_uniqueness_invariant [VendorOp.create 100 1 "owner" 0] 100 1).2
     "manager" 1 (by decide)⟩
